import Mathlib

/-!
Shallow embedding of `src/leitmotiv/models/_models.py`: the abstract `Model`
base class (abc.ABC with abstract `train`, `infer`, `to_dict`, `from_dict`)
and its concrete `save`/`load` helpers, which wrap `pathlib.Path`
normalization, `torch.save` and `torch.load(map_location='cpu')`.
Filesystem and serialization effects are made explicit: a pure
`FileSystem` value is threaded through the persistence operations, and
Python exceptions are modelled with `Except`.
-/

/-- A numeric-computation device, as torch exposes it: the CPU or an
accelerator identified by an index. -/
inductive Device where
  | cpu : Device
  | cuda : Nat → Device
deriving DecidableEq, Repr

/-- A value that can occur in a model's state dictionary: Python scalars,
strings, or a torch tensor carrying the device it is resident on together
with its numeric payload. -/
inductive Value where
  | int : Int → Value
  | str : String → Value
  | tensor : Device → List Int → Value
deriving DecidableEq, Repr

/-- The state mapping exported by `to_dict`: string keys to values, with no
schema enforced at this layer. -/
abbrev StateDict := List (String × Value)

/-- Move a single value to the CPU device; non-tensor values are untouched.
Models what `map_location='cpu'` does to one stored tensor. -/
def Value.toCpu : Value → Value
  | .tensor _ data => .tensor .cpu data
  | v => v

/-- `true` when the value is not a tensor resident on a non-CPU device. -/
def Value.onCpu : Value → Bool
  | .tensor dev _ => decide (dev = Device.cpu)
  | _ => true

/-- Move every value of a state dictionary to the CPU device. -/
def StateDict.toCpu (d : StateDict) : StateDict :=
  d.map (fun kv => (kv.1, kv.2.toCpu))

/-- `true` when every array value of the mapping is CPU-resident. -/
def StateDict.allOnCpu (d : StateDict) : Bool :=
  d.all (fun kv => kv.2.onCpu)

/-- A normalized filesystem path, as produced by `pathlib.Path`: an
absolute/relative flag and the list of non-trivial components. -/
structure PurePath where
  absolute : Bool
  components : List String
deriving DecidableEq, Repr

/-- Split a character list into the groups delimited by `/`. -/
def splitOnSlash : List Char → List (List Char)
  | [] => [[]]
  | c :: rest =>
      let r := splitOnSlash rest
      if c = '/' then [] :: r
      else
        match r with
        | [] => [[c]]
        | g :: gs => (c :: g) :: gs

/-- Parse a path string the way `pathlib.PurePosixPath` does: split on
`/`, drop empty components and single dots, record whether the path was
absolute. -/
def parsePath (s : String) : PurePath :=
  { absolute := s.data.head? == some '/'
    components :=
      ((splitOnSlash s.data).filter
        (fun g => !(g.isEmpty || g == ['.']))).map (fun g => String.mk g) }

/-- The parent of a path (`pathlib.Path.parent`): the path with its last
component removed. -/
def PurePath.parent (p : PurePath) : PurePath :=
  { absolute := p.absolute, components := p.components.dropLast }

/-- A path-like argument, as Python's `os.PathLike` duck typing admits it
at the `save`/`load` call sites: either a raw string or an already
constructed path object. -/
inductive PathLike where
  | str : String → PathLike
  | path : PurePath → PathLike
deriving DecidableEq, Repr

/-- `pathlib.Path(path)`: normalize a path-like argument to a canonical
path object.  Applied to an existing path object it returns it unchanged;
applied to a string it parses it. -/
def pathlibPath : PathLike → PurePath
  | .str s => parsePath s
  | .path p => p

/-- A Python exception as surfaced by the operations modelled here. -/
inductive PyError where
  | typeError : String → PyError
  | ioError : String → PyError
  | keyError : String → PyError
deriving DecidableEq, Repr

/-- The filesystem state visible to `torch.save`/`torch.load`: the set of
existing directories and the files with their deserialized contents. -/
structure FileSystem where
  dirs : List PurePath
  files : List (PurePath × StateDict)
deriving DecidableEq, Repr

/-- Contents of the file at `p`, if one exists. -/
def FileSystem.lookup (fs : FileSystem) (p : PurePath) : Option StateDict :=
  (fs.files.find? (fun f => decide (f.1 = p))).map Prod.snd

/-- `true` when the directory `q` exists on the filesystem. -/
def FileSystem.hasDir (fs : FileSystem) (q : PurePath) : Bool :=
  fs.dirs.any (fun r => decide (r = q))

/-- `torch.save(model_dict, path)`: serialize a state mapping to a file.
Fails with an I/O error when the parent directory does not exist (no
directory creation is attempted); otherwise writes or overwrites the file
at `path`, leaving the rest of the filesystem unchanged. -/
def torchSave (fs : FileSystem) (p : PurePath) (d : StateDict) :
    Except PyError FileSystem :=
  if fs.hasDir p.parent then
    .ok { dirs := fs.dirs
          files := (p, d) :: fs.files.filter (fun f => !decide (f.1 = p)) }
  else
    .error (.ioError "No such file or directory")

/-- `torch.load(path, map_location)`: deserialize the state mapping stored
at `path`.  Fails with an I/O error when no file exists there; when
`mapToCpu` is set (the `map_location='cpu'` case used by `Model.load`),
every tensor of the result is materialized on the CPU device. -/
def torchLoad (fs : FileSystem) (p : PurePath) (mapToCpu : Bool) :
    Except PyError StateDict :=
  match fs.lookup p with
  | none => .error (.ioError "No such file or directory")
  | some d => .ok (if mapToCpu then d.toCpu else d)

/-- A concrete subclass of `Model` with the four abstract operations
implemented, over an instance-state type `σ`.  Methods that Python lets
mutate `self` return the updated state explicitly: `train` and `infer`
take and return a state, and `to_dict` returns the (possibly updated)
state alongside the exported mapping.  `from_dict` is the static factory:
it takes only the mapping and either returns a reconstructed state or
raises. -/
structure ModelClass (σ : Type) where
  train : σ → Value → σ × Value
  infer : σ → Value → σ × Value
  to_dict : σ → σ × StateDict
  from_dict : StateDict → Except PyError σ

/-- `Model.save(self, path)`, translated from the source: normalize `path`
with `pathlib.Path`, call `self.to_dict()`, and hand the resulting mapping
to `torch.save`.  Any error of the underlying write is passed through
unchanged; on success the (possibly updated by `to_dict`) instance state
and the new filesystem are returned. -/
def ModelClass.save {σ : Type} (M : ModelClass σ) (m : σ) (path : PathLike)
    (fs : FileSystem) : Except PyError (σ × FileSystem) :=
  let p := pathlibPath path
  let self' := (M.to_dict m).1
  let model_dict := (M.to_dict m).2
  (torchSave fs p model_dict).map (fun fs' => (self', fs'))

/-- The deserialization step of `Model.load`: `torch.load(path,
map_location='cpu')` after `pathlib.Path` normalization. -/
def ModelClass.loadDict (path : PathLike) (fs : FileSystem) :
    Except PyError StateDict :=
  torchLoad fs (pathlibPath path) true

/-- `Model.load(cls, path)`, translated from the source: normalize `path`,
deserialize the mapping with all tensors forced onto the CPU, and hand the
mapping as-is to the subclass's `from_dict`.  Errors of either step are
passed through unchanged. -/
def ModelClass.load {σ : Type} (M : ModelClass σ) (path : PathLike)
    (fs : FileSystem) : Except PyError σ := do
  let model_dict ← ModelClass.loadDict path fs
  M.from_dict model_dict

/-- A subclass declaration as `abc` sees it: for each of the four abstract
methods of `Model`, either an implementation or `none` when the subclass
omits it. -/
structure SubclassDecl (σ : Type) where
  train? : Option (σ → Value → σ × Value)
  infer? : Option (σ → Value → σ × Value)
  to_dict? : Option (σ → σ × StateDict)
  from_dict? : Option (StateDict → Except PyError σ)

/-- Instantiation under `abc.ABCMeta`: constructing an instance of a
subclass succeeds only when every abstract method of `Model` has an
implementation; otherwise a `TypeError` is raised at construction time. -/
def SubclassDecl.instantiate {σ : Type} (c : SubclassDecl σ) :
    Except PyError (ModelClass σ) :=
  match c.train?, c.infer?, c.to_dict?, c.from_dict? with
  | some t, some i, some td, some fd => .ok ⟨t, i, td, fd⟩
  | _, _, _, _ =>
      .error (.typeError "Can not instantiate abstract class with abstract methods")

/-- The `Model` base class itself, as a subclass declaration: all four
methods are declared abstract with no implementation (`train`, `infer`,
`to_dict` via `@abc.abstractmethod`, `from_dict` via
`@abc.abstractstaticmethod`). -/
def ModelBase (σ : Type) : SubclassDecl σ :=
  { train? := none, infer? := none, to_dict? := none, from_dict? := none }

/-- A `from_dict` that is the exact inverse of `to_dict` at the level of
state mappings: whenever it succeeds on a mapping, the reconstructed
model's `to_dict` exports exactly that mapping. -/
def ModelClass.DictInverse {σ : Type} (M : ModelClass σ) : Prop :=
  ∀ (d : StateDict) (m' : σ), M.from_dict d = .ok m' → (M.to_dict m').2 = d

/-- A `from_dict` that reconstructs the instance state exactly from the
mapping its own `to_dict` exports. -/
def ModelClass.StateInverse {σ : Type} (M : ModelClass σ) : Prop :=
  ∀ s : σ, M.from_dict (M.to_dict s).2 = .ok s

/-- Modelled from the spec: no concrete `Model` subclass ships in this
repository, so a representative one is built from the spec's contract
("a linear regressor will describe a dataset via a hyperplane"): its
state is a weight tensor resident on some device. -/
structure LinearState where
  weights : List Int
  device : Device
deriving DecidableEq, Repr

/-- Modelled from the spec: the representative subclass's `to_dict`; it
does not mutate the instance and exports the full state. -/
def linearToDict (s : LinearState) : LinearState × StateDict :=
  (s, [("weights", .tensor s.device s.weights)])

/-- Modelled from the spec: the representative subclass's `from_dict`;
it reconstructs the state from exactly the mapping `to_dict` exports and
raises a reconstruction error on any other shape. -/
def linearFromDict (d : StateDict) : Except PyError LinearState :=
  match d with
  | [("weights", .tensor dev ws)] => .ok { weights := ws, device := dev }
  | _ => .error (.keyError "weights")

/-- Modelled from the spec: one gradient-style update of the weights and a
scalar cost, standing in for the unspecified training iteration. -/
def linearTrain (s : LinearState) (_data : Value) : LinearState × Value :=
  ({ s with weights := s.weights.map (fun w => w + 1) }, .int 0)

/-- Modelled from the spec: inference applies the state without mutating
it. -/
def linearInfer (s : LinearState) (data : Value) : LinearState × Value :=
  (s, data)

/-- Modelled from the spec: the representative concrete model class. -/
def LinearModel : ModelClass LinearState :=
  { train := linearTrain
    infer := linearInfer
    to_dict := linearToDict
    from_dict := linearFromDict }

/-- A small filesystem with a root directory and a `/models` directory and
no files, used to exercise the persistence operations on concrete
inputs. -/
def demoFS : FileSystem :=
  { dirs := [parsePath "/", parsePath "/models"], files := [] }

/-- A filesystem with no directories at all, so no parent directory of any
path exists. -/
def bareFS : FileSystem :=
  { dirs := [], files := [] }

/-- A concrete path-like argument handed to `save`/`load` as a raw
string. -/
def demoPath : PathLike := .str "/models/m.pt"

/-- A concrete instance state of the representative model, resident on an
accelerator device. -/
def demoState : LinearState := { weights := [1, 2], device := .cuda 0 }

/-- The filesystem obtained from `demoFS` after saving `demoState` at
`demoPath`. -/
def demoSavedFS : FileSystem :=
  { dirs := demoFS.dirs
    files :=
      [(parsePath "/models/m.pt", [("weights", .tensor (.cuda 0) [1, 2])])] }

/-- A subclass declaration implementing every abstract method of `Model`
except the static factory `from_dict`. -/
def incompleteDecl : SubclassDecl LinearState :=
  { train? := some linearTrain
    infer? := some linearInfer
    to_dict? := some linearToDict
    from_dict? := none }

/-! ## Helper lemmas -/

/-- Moving a value to the CPU is idempotent. -/
theorem Value.toCpu_toCpu (v : Value) : v.toCpu.toCpu = v.toCpu := by
  cases v <;> rfl

/-- Moving a state dictionary to the CPU is idempotent. -/
theorem StateDict.toCpu_idem (d : StateDict) : d.toCpu.toCpu = d.toCpu := by
  unfold StateDict.toCpu
  rw [List.map_map]
  apply List.map_congr_left
  intro kv _
  simp [Value.toCpu_toCpu]

/-- A value moved to the CPU device is on the CPU device. -/
theorem Value.onCpu_toCpu (v : Value) : v.toCpu.onCpu = true := by
  cases v <;> simp [Value.toCpu, Value.onCpu]

/-- A state dictionary moved to the CPU is entirely CPU-resident. -/
theorem StateDict.allOnCpu_toCpu (d : StateDict) : d.toCpu.allOnCpu = true := by
  unfold StateDict.toCpu StateDict.allOnCpu
  rw [List.all_eq_true]
  intro kv hkv
  rcases List.mem_map.mp hkv with ⟨x, _, rfl⟩
  exact Value.onCpu_toCpu x.2

/-- After a successful `torchSave` at `p`, the file at `p` holds exactly the
written dictionary. -/
theorem torchSave_lookup (fs fs' : FileSystem) (p : PurePath) (d : StateDict)
    (h : torchSave fs p d = .ok fs') : fs'.lookup p = some d := by
  unfold torchSave at h
  by_cases hd : fs.hasDir p.parent
  · simp [hd] at h
    subst h
    simp [FileSystem.lookup, List.find?]
  · simp [hd] at h

/-- A successful `save` decomposes into a successful `torchSave` of the
exported dictionary at the normalized path. -/
theorem save_ok_iff {σ : Type} (M : ModelClass σ) (m : σ) (p : PathLike)
    (fs fs' : FileSystem) (m' : σ) :
    M.save m p fs = .ok (m', fs') ↔
      m' = (M.to_dict m).1 ∧
        torchSave fs (pathlibPath p) (M.to_dict m).2 = .ok fs' := by
  unfold ModelClass.save
  cases hts : torchSave fs (pathlibPath p) (M.to_dict m).2 with
  | error e => simp [hts, Except.map]
  | ok fs'' =>
      simp [hts, Except.map]
      intro _
      exact eq_comm

/-- The representative model's `from_dict` produces a state whose
`to_dict` exports exactly the mapping it was given. -/
theorem linearModel_dictInverse : LinearModel.DictInverse := by
  intro d m' h
  simp only [LinearModel, linearFromDict] at h
  split at h
  · cases h
    rfl
  · cases h

/-- The representative model's `from_dict` reconstructs the exact state
its `to_dict` exported. -/
theorem linearModel_stateInverse : LinearModel.StateInverse := by
  intro s
  rfl

/-- The representative model's `to_dict` does not mutate the instance. -/
theorem linearModel_toDict_pure (s : LinearState) :
    (LinearModel.to_dict s).1 = s := rfl

/-! ## Claims -/

/-- C1: for every concrete model whose `from_dict` is the exact inverse of
its `to_dict` at the level of state mappings (whenever `from_dict`
succeeds on a mapping, the reconstructed model exports exactly that
mapping), and every writable path, `save` followed by `load` on the
model's class yields a model `m2` whose `to_dict` equals the original's
`to_dict` after both are normalized to the CPU device. -/
theorem save_load_roundtrip {σ : Type} (M : ModelClass σ)
    (hinv : M.DictInverse) (m m1 m2 : σ) (p : PathLike)
    (fs fs' : FileSystem)
    (hsave : M.save m p fs = .ok (m1, fs'))
    (hload : M.load p fs' = .ok m2) :
    ((M.to_dict m2).2).toCpu = ((M.to_dict m).2).toCpu := by
  rcases (save_ok_iff M m p fs fs' m1).mp hsave with ⟨-, hts⟩
  have hlook := torchSave_lookup fs fs' (pathlibPath p) (M.to_dict m).2 hts
  unfold ModelClass.load ModelClass.loadDict torchLoad at hload
  rw [hlook] at hload
  simp only [if_true, bind, Except.bind] at hload
  rw [hinv _ _ hload, StateDict.toCpu_idem]

/-- Witness for C1 at concrete inputs: saving the accelerator-resident
state `demoState` to `/models/m.pt` and loading it back yields the
CPU-resident state with the same weights, whose exported mapping matches
after CPU normalization. -/
theorem save_load_roundtrip_witness :
    ((LinearModel.to_dict { weights := [1, 2], device := Device.cpu }).2).toCpu
      = ((LinearModel.to_dict demoState).2).toCpu :=
  save_load_roundtrip LinearModel linearModel_dictInverse demoState demoState
    { weights := [1, 2], device := Device.cpu } demoPath demoFS demoSavedFS
    rfl rfl

/-- C2: `save` performs exactly these steps: normalize the path argument
with `pathlib.Path`, call `to_dict`, and hand the exported mapping to the
external tensor-serialization write primitive at the normalized path;
and `save` on a raw string behaves exactly as `save` on the
already-normalized path object. -/
theorem save_steps {σ : Type} (M : ModelClass σ) (m : σ) (p : PathLike)
    (fs : FileSystem) :
    M.save m p fs =
      (torchSave fs (pathlibPath p) (M.to_dict m).2).map
        (fun fs' => ((M.to_dict m).1, fs')) ∧
    ∀ s : String,
      M.save m (.str s) fs = M.save m (.path (pathlibPath (.str s))) fs :=
  ⟨rfl, fun _ => rfl⟩

/-- C3: `load` performs exactly these steps: normalize the path with
`pathlib.Path`, deserialize the mapping from that path with every tensor
forced onto the CPU device, and return the result of the subclass's
`from_dict` on that mapping; whatever mapping is stored at the path is
passed to `from_dict` unvalidated. -/
theorem load_steps {σ : Type} (M : ModelClass σ) (p : PathLike)
    (fs : FileSystem) :
    M.load p fs = (torchLoad fs (pathlibPath p) true).bind M.from_dict ∧
    ∀ d : StateDict, fs.lookup (pathlibPath p) = some d →
      M.load p fs = M.from_dict d.toCpu := by
  constructor
  · rfl
  · intro d hd
    unfold ModelClass.load ModelClass.loadDict torchLoad
    rw [hd]
    rfl

/-- Witness for C3 at concrete inputs: the file saved at `/models/m.pt`
holds the accelerator-resident mapping, and `load` on that filesystem is
exactly `from_dict` of that mapping moved to the CPU. -/
theorem load_steps_witness :
    demoSavedFS.lookup (pathlibPath demoPath)
        = some [("weights", Value.tensor (Device.cuda 0) [1, 2])] ∧
    LinearModel.load demoPath demoSavedFS
        = LinearModel.from_dict
            (StateDict.toCpu [("weights", Value.tensor (Device.cuda 0) [1, 2])]) :=
  ⟨rfl, (load_steps LinearModel demoPath demoSavedFS).2
    [("weights", Value.tensor (Device.cuda 0) [1, 2])] rfl⟩

/-- C4: every mapping produced by the deserialization step of `load` is
entirely CPU-resident, regardless of the device its tensors were saved
from. -/
theorem load_forces_cpu (p : PathLike) (fs : FileSystem) (d : StateDict)
    (h : ModelClass.loadDict p fs = .ok d) : d.allOnCpu = true := by
  unfold ModelClass.loadDict torchLoad at h
  cases hl : fs.lookup (pathlibPath p) with
  | none =>
      rw [hl] at h
      cases h
  | some d0 =>
      rw [hl] at h
      simp only [if_true, Except.ok.injEq] at h
      rw [← h]
      exact StateDict.allOnCpu_toCpu d0


/-- Witness for C4 at concrete inputs: deserializing the file saved from
an accelerator device yields a mapping every tensor of which is on the
CPU. -/
theorem load_forces_cpu_witness :
    ModelClass.loadDict demoPath demoSavedFS
        = .ok [("weights", Value.tensor Device.cpu [1, 2])] ∧
    StateDict.allOnCpu [("weights", Value.tensor Device.cpu [1, 2])] = true :=
  ⟨rfl, load_forces_cpu demoPath demoSavedFS
    [("weights", Value.tensor Device.cpu [1, 2])] rfl⟩

/-- C5: for a concrete model whose `from_dict` reconstructs the exact
state `to_dict` exported (the interface's contract on subclasses),
`from_dict` applied to `d = to_dict m` yields a model whose `to_dict`
equals `d`: `from_dict` is the exact inverse of `to_dict` at the level of
state mappings. -/
theorem from_dict_to_dict_roundtrip {σ : Type} (M : ModelClass σ)
    (hM : M.StateInverse) (m : σ) :
    ∃ m2 : σ, M.from_dict (M.to_dict m).2 = .ok m2 ∧
      (M.to_dict m2).2 = (M.to_dict m).2 :=
  ⟨m, hM m, rfl⟩

/-- Witness for C5 at concrete inputs: the representative model's
round-trip at `demoState`. -/
theorem from_dict_to_dict_roundtrip_witness :
    ∃ m2 : LinearState,
      LinearModel.from_dict (LinearModel.to_dict demoState).2 = .ok m2 ∧
        (LinearModel.to_dict m2).2 = (LinearModel.to_dict demoState).2 :=
  from_dict_to_dict_roundtrip LinearModel linearModel_stateInverse demoState

/-- C6: instantiating a subclass that omits any of `train`, `infer`,
`to_dict`, `from_dict` fails at construction with a `TypeError`, and never
produces an instance. -/
theorem abstract_subclass_instantiation_fails {σ : Type} (c : SubclassDecl σ)
    (h : c.train? = none ∨ c.infer? = none ∨ c.to_dict? = none ∨
      c.from_dict? = none) :
    c.instantiate
        = .error
            (.typeError "Can not instantiate abstract class with abstract methods") ∧
      ∀ M : ModelClass σ, c.instantiate ≠ .ok M := by
  obtain ⟨t, i, td, fd⟩ := c
  cases t <;> cases i <;> cases td <;> cases fd <;>
    first
      | exact ⟨rfl, fun M hM => Except.noConfusion hM⟩
      | simp_all

/-- Witness for C6 at a concrete declaration: a subclass implementing
everything but `from_dict` cannot be instantiated. -/
theorem abstract_subclass_instantiation_fails_witness :
    incompleteDecl.instantiate
        = .error
            (.typeError "Can not instantiate abstract class with abstract methods") ∧
      ∀ M : ModelClass LinearState, incompleteDecl.instantiate ≠ .ok M :=
  abstract_subclass_instantiation_fails incompleteDecl
    (Or.inr (Or.inr (Or.inr rfl)))

/-- C7: `load` on a path that names no existing file raises the
deserialization I/O error and never returns a model. -/
theorem load_missing_file {σ : Type} (M : ModelClass σ) (p : PathLike)
    (fs : FileSystem) (h : fs.lookup (pathlibPath p) = none) :
    M.load p fs = .error (.ioError "No such file or directory") ∧
      ∀ m : σ, M.load p fs ≠ .ok m := by
  have hl : M.load p fs = .error (.ioError "No such file or directory") := by
    unfold ModelClass.load ModelClass.loadDict torchLoad
    rw [h]
    rfl
  refine ⟨hl, fun m hm => ?_⟩
  rw [hl] at hm
  cases hm

/-- Witness for C7 at concrete inputs: loading `/models/m.pt` from the
filesystem that has directories but no files raises the I/O error. -/
theorem load_missing_file_witness :
    demoFS.lookup (pathlibPath demoPath) = none ∧
      LinearModel.load demoPath demoFS
        = .error (.ioError "No such file or directory") :=
  ⟨rfl, (load_missing_file LinearModel demoPath demoFS rfl).1⟩

/-- C8: `save` to a path whose parent directory does not exist fails with
the underlying serialization I/O error, passed through unchanged (the
error `save` raises is exactly the error the write primitive raises), and
no success value is ever produced. -/
theorem save_missing_parent {σ : Type} (M : ModelClass σ) (m : σ)
    (p : PathLike) (fs : FileSystem)
    (h : fs.hasDir (pathlibPath p).parent = false) :
    M.save m p fs = .error (.ioError "No such file or directory") ∧
      torchSave fs (pathlibPath p) (M.to_dict m).2
        = .error (.ioError "No such file or directory") ∧
      ∀ r : σ × FileSystem, M.save m p fs ≠ .ok r := by
  have hts : torchSave fs (pathlibPath p) (M.to_dict m).2
      = .error (.ioError "No such file or directory") := by
    unfold torchSave
    rw [h]
    rfl
  have hs : M.save m p fs = .error (.ioError "No such file or directory") := by
    have hdef : M.save m p fs
        = (torchSave fs (pathlibPath p) (M.to_dict m).2).map
            (fun fs' => ((M.to_dict m).1, fs')) := rfl
    rw [hdef, hts]
    rfl
  refine ⟨hs, hts, fun r hr => ?_⟩
  rw [hs] at hr
  cases hr

/-- Witness for C8 at concrete inputs: saving to `/models/m.pt` on a
filesystem with no directories raises the I/O error of the write
primitive. -/
theorem save_missing_parent_witness :
    bareFS.hasDir (pathlibPath demoPath).parent = false ∧
      LinearModel.save demoState demoPath bareFS
        = .error (.ioError "No such file or directory") :=
  ⟨rfl,
    (save_missing_parent LinearModel demoState demoPath bareFS rfl).1⟩

/-- C9: `save` does not mutate the model: when `to_dict` itself is
non-mutating, a successful `save` returns the instance state unchanged,
so `to_dict` before and after the call exports the same mapping. -/
theorem save_does_not_mutate {σ : Type} (M : ModelClass σ)
    (hpure : ∀ s : σ, (M.to_dict s).1 = s) (m : σ) (p : PathLike)
    (fs fs' : FileSystem) (m' : σ)
    (h : M.save m p fs = .ok (m', fs')) :
    m' = m ∧ (M.to_dict m').2 = (M.to_dict m).2 := by
  rcases (save_ok_iff M m p fs fs' m').mp h with ⟨hm, -⟩
  have hm' : m' = m := by rw [hm, hpure]
  exact ⟨hm', by rw [hm']⟩

/-- Witness for C9 at concrete inputs: saving `demoState` leaves the
instance state and its exported mapping unchanged. -/
theorem save_does_not_mutate_witness :
    demoState = demoState ∧
      (LinearModel.to_dict demoState).2 = (LinearModel.to_dict demoState).2 :=
  save_does_not_mutate LinearModel linearModel_toDict_pure demoState demoPath
    demoFS demoSavedFS demoState rfl

/-- C10: the `Model` base class itself, all four of whose methods are
abstract with no implementation, can never be instantiated: construction
fails with a `TypeError`. -/
theorem model_base_not_instantiable (σ : Type) :
    (ModelBase σ).instantiate
        = .error
            (.typeError "Can not instantiate abstract class with abstract methods") ∧
      ∀ M : ModelClass σ, (ModelBase σ).instantiate ≠ .ok M :=
  ⟨rfl, fun _ hM => Except.noConfusion hM⟩
